import Mathlib

/-!
Shallow embedding of the metrics and event-query engine of the
cometbft-analyzer-backend repository.

Records stored in the MongoDB collections are modelled as Lean structures;
aggregation pipelines are modelled stage by stage as list transformations.
Timestamps and latencies are modelled as integers (nanoseconds since an
arbitrary origin).  MongoDB's `$percentile` operator with method
"approximate" is modelled as the nearest-rank percentile over the sorted
input (the spec explicitly allows any approximate percentile algorithm; the
claims under verification do not depend on the particular sketch used, only
on both call sites using the same function).
-/

namespace CometbftAnalyzer

/-- A vote latency sample document, as stored in the vote-latency collection
and decoded into `vote.VoteLatency` (fields used by
`src/metrics/vote_latencies.go`). -/
structure VoteLatency where
  voteHeight : Int
  voteRound : Int
  voteType : String
  voteValidatorIndex : Int
  senderPeerId : String
  recipientPeerId : String
  sentTime : Int
  receivedTime : Int
  latency : Int
  status : String
  deriving DecidableEq, Repr

/-- Nearest-rank index for percentile `pNum/pDen` over `n` sorted values:
rank `⌈pNum·n / pDen⌉` (at least 1), zero-based and clamped to the
list. -/
def nearestRankIndex (pNum pDen n : Nat) : Nat :=
  min (n - 1) (max 1 ((pNum * n + pDen - 1) / pDen) - 1)

/-- Model of MongoDB `$percentile` (method "approximate") on a list of
integer inputs, for the percentile `pNum/pDen`: `none` on an empty input,
otherwise the nearest-rank percentile of the sorted values. -/
def mongoPercentile (pNum pDen : Nat) (xs : List Int) : Option Int :=
  let sorted := xs.insertionSort (fun a b => a ≤ b)
  if sorted.length = 0 then none
  else some (sorted.getD (nearestRankIndex pNum pDen sorted.length) 0)

/-- The percentile value selected by the `switch percentile` statement in
`GetVoteLatencies` ("p50" ↦ 0.50, "p95" ↦ 0.95, "p99" ↦ 0.99, default
↦ 0.95), as an exact numerator/denominator pair. -/
def percentileValueOf (percentile : String) : Nat × Nat :=
  match percentile with
  | "p50" => (50, 100)
  | "p95" => (95, 100)
  | "p99" => (99, 100)
  | _ => (95, 100)

/-- The `$match` condition of the percentile pipeline in `GetVoteLatencies`:
status "confirmed" and `sentTime` within `[tfrom, tto]`. -/
def confirmedInWindow (tfrom tto : Int) (v : VoteLatency) : Bool :=
  v.status = "confirmed" && tfrom ≤ v.sentTime && v.sentTime ≤ tto

/-- Result of `GetVoteLatencies`: the page of data plus the total count of
above-threshold samples. -/
structure VoteLatencyResult where
  data : List VoteLatency
  total : Nat
  deriving DecidableEq, Repr

/-- Embedding of `GetVoteLatencies` (src/metrics/vote_latencies.go):
computes the percentile threshold over confirmed in-window samples, returns
empty when there is no percentile result, otherwise matches confirmed
in-window samples with `latency ≥ threshold`, counts them, sorts by
`sentTime` ascending and paginates with skip `(page−1)·perPage` and limit
`perPage`. -/
def GetVoteLatencies (coll : List VoteLatency) (tfrom tto : Int)
    (page perPage : Int) (percentile : String) : VoteLatencyResult :=
  let percentileValue := percentileValueOf percentile
  let windowDocs := coll.filter (fun v => confirmedInWindow tfrom tto v)
  match mongoPercentile percentileValue.1 percentileValue.2
      (windowDocs.map (fun v => v.latency)) with
  | none => ⟨[], 0⟩
  | some threshold =>
    let matched := coll.filter
      (fun v => confirmedInWindow tfrom tto v && threshold ≤ v.latency)
    let total := matched.length
    let skip := (page - 1) * perPage
    let sorted := matched.insertionSort (fun a b => a.sentTime ≤ b.sentTime)
    let data := (sorted.drop skip.toNat).take perPage.toNat
    ⟨data, total⟩

/-- Response row of `ComputeVoteStatistics` (types.VoteStatisticsResponse);
percentiles and max are decoded in milliseconds, `spikePerc` is passed
through unchanged. -/
structure VoteStatisticsResponse where
  sender : String
  receiver : String
  voteType : String
  count : Nat
  p50 : Rat
  p90 : Rat
  p95 : Rat
  p99 : Rat
  maxMs : Rat
  spikePerc : Rat
  deriving DecidableEq, Repr

/-- Grouping key of the `$group` stage of `ComputeVoteStatistics`:
`(senderPeerId, recipientPeerId, vote.type)`. -/
def voteStatKey (v : VoteLatency) : String × String × String :=
  (v.senderPeerId, v.recipientPeerId, v.voteType)

/-- The latencies pushed into one group of `ComputeVoteStatistics`. -/
def groupLatencies (docs : List VoteLatency) (k : String × String × String) :
    List Int :=
  (docs.filter (fun v => voteStatKey v = k)).map (fun v => v.latency)

/-- The sort order of the final `$sort` stage of `ComputeVoteStatistics`:
by sender, then receiver, then voteType. -/
def voteStatKeyLE (a b : String × String × String) : Bool :=
  a.1 < b.1 || (a.1 = b.1 &&
    (a.2.1 < b.2.1 || (a.2.1 = b.2.1 && a.2.2 ≤ b.2.2)))

/-- Millisecond conversion of a decoded percentile array: first element
divided by 1e6, or 0 when the array is empty (the Go decode path). -/
def percentileToMs (x : Option Int) : Rat :=
  match x with
  | some v => (v : Rat) / 1000000
  | none => 0

/-- One output row of `ComputeVoteStatistics` for group key `k` over the
matched documents: count, percentiles, max, and
`spikePerc = (spikes / count) * 100` where `spikes` is the number of
latencies `≥ 2 × (arrayElemAt p95 0)`. -/
def voteStatisticsRow (docs : List VoteLatency) (k : String × String × String) :
    VoteStatisticsResponse :=
  let lats := groupLatencies docs k
  let count := lats.length
  let p95Value := (mongoPercentile 95 100 lats).getD 0
  let spikeThreshold := 2 * p95Value
  let spikes := (lats.filter (fun l => spikeThreshold ≤ l)).length
  { sender := k.1
    receiver := k.2.1
    voteType := k.2.2
    count := count
    p50 := percentileToMs (mongoPercentile 50 100 lats)
    p90 := percentileToMs (mongoPercentile 90 100 lats)
    p95 := percentileToMs (mongoPercentile 95 100 lats)
    p99 := percentileToMs (mongoPercentile 99 100 lats)
    maxMs := ((lats.max?.getD 0 : Int) : Rat) / 1000000
    spikePerc := ((spikes : Rat) / (count : Rat)) * 100 }

/-- Embedding of `ComputeVoteStatistics` (src/metrics/vote_latencies.go):
match confirmed in-window samples, group by (sender, receiver, voteType),
compute count/percentiles/max/spike statistics per group, sort by the group
key. -/
def ComputeVoteStatistics (coll : List VoteLatency) (tfrom tto : Int) :
    List VoteStatisticsResponse :=
  let docs := coll.filter (fun v => confirmedInWindow tfrom tto v)
  let keys := (docs.map voteStatKey).dedup
  (keys.map (voteStatisticsRow docs)).insertionSort
    (fun a b => voteStatKeyLE (a.sender, a.receiver, a.voteType)
      (b.sender, b.receiver, b.voteType) = true)

/-- A raw consensus event document (fields used by the metrics pipelines in
src/metrics/vote_latencies.go and the events handler). `height` is the
top-level height field of phase events; `voteHeight`/`voteRound`/
`voteValidatorIndex` are the embedded `vote.*` fields of vote messages. -/
structure Event where
  type : String
  timestamp : Int
  nodeId : String
  sourcePeerId : String
  recipientPeerId : String
  height : Int
  voteHeight : Int
  voteRound : Int
  voteValidatorIndex : Int
  deriving DecidableEq, Repr

/-- The shared `matchTime` `$match` stage of pipeline functions 2–5 of
src/metrics/vote_latencies.go: timestamp within `[tfrom, tto]` AND
`type = "sendVote"`. -/
def matchTimeSendVote (tfrom tto : Int) (e : Event) : Bool :=
  tfrom ≤ e.timestamp && e.timestamp ≤ tto && e.type = "sendVote"

/-- Output of the `$project` stage of `ComputeMessageSuccessRate`: the
height, the (sender, receiver) pair, and the sent/recv indicator values. -/
structure ProjectedVoteMsg where
  height : Int
  pair : String × String
  sent : Nat
  recv : Nat
  deriving DecidableEq, Repr

/-- Output row of `ComputeMessageSuccessRate`
(types.MessageSuccessRate). -/
structure MessageSuccessRate where
  height : Int
  sender : String
  receiver : String
  sentCnt : Nat
  recvCnt : Nat
  successRate : Rat
  deriving DecidableEq, Repr

/-- The `$project` stage of `ComputeMessageSuccessRate`: the pair is
(nodeId, recipientPeerId) for a send and (sourcePeerId, nodeId) for a
receive; `sent`/`recv` are the 0/1 indicator values. -/
def msgProject (e : Event) : ProjectedVoteMsg :=
  { height := e.voteHeight
    pair := if e.type = "sendVote" then (e.nodeId, e.recipientPeerId)
      else (e.sourcePeerId, e.nodeId)
    sent := if e.type = "sendVote" then 1 else 0
    recv := if e.type = "receiveVote" then 1 else 0 }

/-- The documents reaching the `$project` stage of
`ComputeMessageSuccessRate`: the shared `matchTime` stage (window AND
`type = "sendVote"`) followed by the `$match` on
`type ∈ {sendVote, receiveVote}`. -/
def msgProjected (events : List Event) (tfrom tto : Int) :
    List ProjectedVoteMsg :=
  (((events.filter (matchTimeSendVote tfrom tto)).filter
    (fun e => e.type = "sendVote" || e.type = "receiveVote")).map msgProject)

/-- The `$group` and success-rate `$project` stages of
`ComputeMessageSuccessRate` for one (height, sender, receiver) key:
`sentCnt`/`recvCnt` sums and
`successRate = cond(sentCnt = 0, 0, recvCnt/sentCnt)`. -/
def msgGroupRow (projected : List ProjectedVoteMsg)
    (k : Int × String × String) : MessageSuccessRate :=
  let grp := projected.filter (fun d => (d.height, d.pair.1, d.pair.2) = k)
  let sentCnt := (grp.map (fun d => d.sent)).sum
  let recvCnt := (grp.map (fun d => d.recv)).sum
  { height := k.1
    sender := k.2.1
    receiver := k.2.2
    sentCnt := sentCnt
    recvCnt := recvCnt
    successRate := if sentCnt = 0 then 0
      else (recvCnt : Rat) / (sentCnt : Rat) }

/-- Embedding of `ComputeMessageSuccessRate` (src/metrics/vote_latencies.go,
function 4).  The pipeline stages in order: the shared `matchTime` stage
(window AND `type = "sendVote"`), a `$match` on
`type ∈ {sendVote, receiveVote}`, a `$project` to (height, pair, sent,
recv), a `$group` by (height, sender, receiver) summing `sent` and `recv`,
a `$project` adding `successRate = cond(sentCnt = 0, 0, recvCnt/sentCnt)`,
and a `$sort` by height. -/
def ComputeMessageSuccessRate (events : List Event) (tfrom tto : Int) :
    List MessageSuccessRate :=
  let projected := msgProjected events tfrom tto
  let keys := (projected.map (fun d => (d.height, d.pair.1, d.pair.2))).dedup
  (keys.map (msgGroupRow projected)).insertionSort
    (fun a b => a.height ≤ b.height)

/-- Output row of `ComputeBlockEndToEndLatencyByHeight`
(types.BlockConsensusLatency); the percentile fields carry the grouped
`$percentile` results. -/
structure BlockConsensusLatency where
  height : Int
  p50Ms : Option Int
  p95Ms : Option Int
  deriving DecidableEq, Repr

/-- Embedding of `ComputeBlockEndToEndLatencyByHeight`
(src/metrics/vote_latencies.go, function 5).  Stages in order: the shared
`matchTime` stage (window AND `type = "sendVote"`), a `$match` on
`type = "enteringNewRound"`, a `$lookup` into the full events collection
joining `receivedCompleteProposalBlock` events on equal height and
projecting `latencyMs = timestamp − startTs`, `$unwind`, a `$group` by
height computing p50/p95, and a `$sort` by height. -/
def ComputeBlockEndToEndLatencyByHeight (events : List Event)
    (tfrom tto : Int) : List BlockConsensusLatency :=
  let stage1 := events.filter (matchTimeSendVote tfrom tto)
  let stage2 := stage1.filter (fun e => e.type = "enteringNewRound")
  let joined := stage2.flatMap (fun s =>
    (events.filter (fun r =>
      r.type = "receivedCompleteProposalBlock" && r.height = s.height)).map
      (fun r => (s.height, r.timestamp - s.timestamp)))
  let keys := (joined.map (fun d => d.1)).dedup
  let rows := keys.map (fun h =>
    let lats := (joined.filter (fun d => d.1 = h)).map (fun d => d.2)
    { height := h
      p50Ms := mongoPercentile 50 100 lats
      p95Ms := mongoPercentile 95 100 lats : BlockConsensusLatency })
  rows.insertionSort (fun a b => a.height ≤ b.height)

/-- Query parameters of `GetConsensusEventsHandler`
(src/handlers/consensus_events_handler.go), after string parsing: `window`
is the resolved time filter (present iff `from` or `to` was supplied),
`limitParam`/`segment` are `none` when the query value is absent or not a
number, `cursor`/`before` are the parsed RFC3339 boundaries. -/
structure EventsParams where
  window : Option (Int × Int)
  limitParam : Option Int
  cursor : Option Int
  before : Option Int
  segment : Option Int
  includeTotalCount : Bool
  deriving DecidableEq, Repr

/-- The effective `limit`: default 10000, replaced by the supplied value
only when it parses and lies in `(0, 50000]`. -/
def effectiveLimit (limitParam : Option Int) : Int :=
  match limitParam with
  | some v => if 0 < v && v ≤ 50000 then v else 10000
  | none => 10000

/-- Segment-based skip offset: `(segment − 1) × limit` for a parsed
positive segment, otherwise 0. -/
def segmentSkip (segment : Option Int) (limit : Int) : Int :=
  match segment with
  | some s => if 0 < s then (s - 1) * limit else 0
  | none => 0

/-- The excluded p2p event types of `GetConsensusEventsHandler`. -/
def excludedTypes : List String :=
  ["p2pProposal", "p2pProposalPOL", "p2pNewRoundStep", "p2pHasVote",
    "p2pVoteSetMaj23", "p2pVoteSetBits", "p2pHasProposalBlockPart"]

/-- The timestamp part of `matchConditions`: time window (when supplied,
inclusive), cursor (exclusive lower bound), before (exclusive upper
bound). -/
def timestampOk (p : EventsParams) (e : Event) : Bool :=
  (match p.window with
    | some ft => ft.1 ≤ e.timestamp && e.timestamp ≤ ft.2
    | none => true) &&
  (match p.cursor with
    | some ct => ct < e.timestamp
    | none => true) &&
  (match p.before with
    | some bt => e.timestamp < bt
    | none => true)

/-- Full `matchConditions` of `GetConsensusEventsHandler`:
`type ∉ excludedTypes` plus the timestamp conditions. -/
def matchesEventQuery (p : EventsParams) (e : Event) : Bool :=
  !(excludedTypes.contains e.type) && timestampOk p e

/-- Response of `GetConsensusEventsHandler`
(types.PaginatedEventsResponse with types.CursorPaginationMeta); cursors
are modelled as the timestamps they encode. -/
structure PaginatedEvents where
  data : List Event
  limit : Int
  hasNext : Bool
  hasPrevious : Bool
  nextCursor : Option Int
  previousCursor : Option Int
  totalCount : Option Nat
  deriving DecidableEq, Repr

/-- All matching events sorted ascending by timestamp (the `$match` and
`$sort` stages of the events pipeline). -/
def matchedSorted (events : List Event) (p : EventsParams) : List Event :=
  (events.filter (matchesEventQuery p)).insertionSort
    (fun a b => a.timestamp ≤ b.timestamp)

/-- The records fetched by the events pipeline: the matched sorted records,
after the `$skip` stage (added only when the segment skip is positive) and
the `$limit` stage with `fetchLimit = limit + 1`. -/
def fetchedPage (events : List Event) (p : EventsParams) : List Event :=
  let limit := effectiveLimit p.limitParam
  let skip := segmentSkip p.segment limit
  let afterSkip :=
    if 0 < skip then (matchedSorted events p).drop skip.toNat
    else matchedSorted events p
  afterSkip.take (limit + 1).toNat

/-- Embedding of the query core of `GetConsensusEventsHandler`
(src/handlers/consensus_events_handler.go): count on request, fetch
`limit+1` matching records sorted ascending by timestamp (skipping the
segment offset when positive), derive `hasNext` from an overfull fetch and
trim, set `hasPrevious` iff a cursor was supplied, and emit
`nextCursor`/`previousCursor` from the last/first returned record when
`hasNext`/`hasPrevious` hold, the page is non-empty and the record's
timestamp is not the zero value. -/
def GetConsensusEventsHandler (events : List Event) (p : EventsParams) :
    PaginatedEvents :=
  let limit := effectiveLimit p.limitParam
  let totalCount :=
    if p.includeTotalCount then
      some ((events.filter (matchesEventQuery p)).length)
    else none
  let fetched := fetchedPage events p
  let hasNext := decide (limit.toNat < fetched.length)
  let eventsToReturn := if hasNext then fetched.take limit.toNat else fetched
  let hasPrevious := p.cursor.isSome
  let nextCursor :=
    if hasNext then
      match eventsToReturn.getLast? with
      | some e => if e.timestamp ≠ 0 then some e.timestamp else none
      | none => none
    else none
  let previousCursor :=
    if hasPrevious then
      match eventsToReturn.head? with
      | some e => if e.timestamp ≠ 0 then some e.timestamp else none
      | none => none
    else none
  { data := eventsToReturn
    limit := limit
    hasNext := hasNext
    hasPrevious := hasPrevious
    nextCursor := nextCursor
    previousCursor := previousCursor
    totalCount := totalCount }

/-- The effective `page` of `GetVoteLatenciesHandler`
(src/handlers/metrics_handler.go): default 1, replaced by a parsed positive
value. -/
def effectivePage (pageParam : Option Int) : Int :=
  match pageParam with
  | some v => if 0 < v then v else 1
  | none => 1

/-- The effective `perPage` of `GetVoteLatenciesHandler`: default 100,
replaced by the supplied value only when it parses and lies in
`(0, 1000]`. -/
def effectivePerPage (perPageParam : Option Int) : Int :=
  match perPageParam with
  | some v => if 0 < v && v ≤ 1000 then v else 100
  | none => 100

/-- One `messageTypes` entry of a stored node-pair latency document:
`count` (decoded as int32) and `p95LatencyMs` (decoded as int64). -/
structure MsgTypeAgg where
  count : Int
  p95LatencyMs : Int
  deriving DecidableEq, Repr

/-- A node-pair latency summary document consumed by
`GetNetworkLatencyOverview` (src/metrics/network_latency.go). -/
structure NodePairDoc where
  node1Id : String
  node2Id : String
  messageTypes : List (String × MsgTypeAgg)
  deriving DecidableEq, Repr

/-- The per-key accumulator of `GetNetworkLatencyOverview`
(`totalWeightedP95`, `totalCount`). -/
structure StatAcc where
  totalWeightedP95 : Rat
  totalCount : Int
  deriving DecidableEq, Repr

/-- Add `(w, c)` to the accumulator stored under key `k`, inserting a fresh
entry when the key is new (the map-update pattern of the Go loop). -/
def updStats (m : List (String × StatAcc)) (k : String) (w : Rat) (c : Int) :
    List (String × StatAcc) :=
  match m.lookup k with
  | some s => m.map (fun kv =>
      if kv.1 = k then (k, ⟨s.totalWeightedP95 + w, s.totalCount + c⟩) else kv)
  | none => m ++ [(k, ⟨w, c⟩)]

/-- The running state of the document loop of
`GetNetworkLatencyOverview`. -/
structure OverviewAcc where
  messageTypeStats : List (String × StatAcc)
  nodeStats : List (String × StatAcc)
  overallWeightedP95 : Rat
  overallCount : Int
  deriving DecidableEq, Repr

/-- Processing of one `messageTypes` entry of a document with endpoints
`node1Id`/`node2Id`: `weightedP95 = p95LatencyMs × count` is accumulated
per message type and globally in full, and credited to each endpoint as
`weightedP95 / 2` with count `count / 2` (Go integer division, modelled by
`Int.tdiv`). -/
def processMessageType (node1Id node2Id : String) (acc : OverviewAcc)
    (entry : String × MsgTypeAgg) : OverviewAcc :=
  let weightedP95 : Rat := (entry.2.p95LatencyMs : Rat) * (entry.2.count : Rat)
  { messageTypeStats :=
      updStats acc.messageTypeStats entry.1 weightedP95 entry.2.count
    nodeStats :=
      updStats
        (updStats acc.nodeStats node1Id (weightedP95 / 2)
          (Int.tdiv entry.2.count 2))
        node2Id (weightedP95 / 2) (Int.tdiv entry.2.count 2)
    overallWeightedP95 := acc.overallWeightedP95 + weightedP95
    overallCount := acc.overallCount + entry.2.count }

/-- Processing of one node-pair document: fold over its `messageTypes`
entries. -/
def processDoc (acc : OverviewAcc) (doc : NodePairDoc) : OverviewAcc :=
  doc.messageTypes.foldl (processMessageType doc.node1Id doc.node2Id) acc

/-- The per-key weighted averages reported for keys with a positive
accumulated count. -/
def avgLatencyMap (stats : List (String × StatAcc)) : List (String × Rat) :=
  (stats.filter (fun kv => 0 < kv.2.totalCount)).map
    (fun kv => (kv.1, kv.2.totalWeightedP95 / (kv.2.totalCount : Rat)))

/-- The highest-average selection loop (strict improvement over a running
best initialised to the empty key and 0). -/
def highestAvg (stats : List (String × StatAcc)) : String × Rat :=
  stats.foldl (fun best kv =>
    if 0 < kv.2.totalCount then
      let avg := kv.2.totalWeightedP95 / (kv.2.totalCount : Rat)
      if best.2 < avg then (kv.1, avg) else best
    else best) ("", 0)

/-- Response of `GetNetworkLatencyOverview`
(types.NetworkLatencyOverviewResponse); the two maps are modelled as
association lists. -/
structure NetworkLatencyOverviewResponse where
  overallWeightedAvgP95LatencyMs : Rat
  messageTypeLatency : List (String × Rat)
  nodeLatencyContribution : List (String × Rat)
  messageTypeWithHighestAvgP95 : String × Rat
  nodeWithHighestAvgP95 : String × Rat
  deriving DecidableEq, Repr

/-- Embedding of `GetNetworkLatencyOverview`
(src/metrics/network_latency.go): fold the accumulation loop over all
documents, then emit the overall weighted average (0 when the overall
count is 0), the per-message-type and per-node average maps, and the
highest-average message type and node. -/
def GetNetworkLatencyOverview (docs : List NodePairDoc) :
    NetworkLatencyOverviewResponse :=
  let acc := docs.foldl processDoc ⟨[], [], 0, 0⟩
  { overallWeightedAvgP95LatencyMs :=
      if 0 < acc.overallCount then
        acc.overallWeightedP95 / (acc.overallCount : Rat)
      else 0
    messageTypeLatency := avgLatencyMap acc.messageTypeStats
    nodeLatencyContribution := avgLatencyMap acc.nodeStats
    messageTypeWithHighestAvgP95 := highestAvg acc.messageTypeStats
    nodeWithHighestAvgP95 := highestAvg acc.nodeStats }

/-- The p95 value a vote-statistics group compares against
(`arrayElemAt p95 0`, defaulting to 0 for an empty group). -/
def groupP95 (lats : List Int) : Int :=
  (mongoPercentile 95 100 lats).getD 0

/-- The number of latencies of a group at or above twice the group's own
p95 (the claim-side spike count). -/
def spikeCount (lats : List Int) : Nat :=
  (lats.filter (fun l => 2 * groupP95 lats ≤ l)).length

/-- A `sendVote` event from node A to peer B at height 5, inside the test
window. -/
def c1SendEvent : Event := ⟨"sendVote", 1, "A", "", "B", 0, 5, 0, 0⟩

/-- The matching `receiveVote` event recorded at node B with source peer A,
inside the test window. -/
def c1RecvEvent : Event := ⟨"receiveVote", 2, "B", "A", "", 0, 5, 0, 0⟩

/-- An `enteringNewRound` event at height 3, inside the test window. -/
def c2NewRound : Event := ⟨"enteringNewRound", 1, "n1", "", "", 3, 0, 0, 0⟩

/-- A `receivedCompleteProposalBlock` event at height 3, 4ns later. -/
def c2CompleteBlock : Event :=
  ⟨"receivedCompleteProposalBlock", 5, "n1", "", "", 3, 0, 0, 0⟩

/-- Node pair (A,B) with one "vote" entry: count 10, p95 100ms. -/
def c3DocAB : NodePairDoc := ⟨"A", "B", [("vote", ⟨10, 100⟩)]⟩

/-- Node pair (B,C) with one "vote" entry: count 5, p95 200ms. -/
def c3DocBC : NodePairDoc := ⟨"B", "C", [("vote", ⟨5, 200⟩)]⟩

/-- A single stored consensus event with a nonzero timestamp. -/
def c6Event : Event := ⟨"enteringNewRound", 1, "n1", "", "", 3, 0, 0, 0⟩

/-- An events request with no filters, no cursor and default limit. -/
def c6Params : EventsParams := ⟨none, none, none, none, none, false⟩

/-- Claim-side description of the records fetched by the events pipeline
(claim C5): all matching events sorted ascending by timestamp, after the
segment skip, truncated to `limit + 1` records. -/
def specFetchedRecords (events : List Event) (p : EventsParams) :
    List Event :=
  ((((events.filter (matchesEventQuery p)).insertionSort
    (fun a b => a.timestamp ≤ b.timestamp)).drop
    (segmentSkip p.segment (effectiveLimit p.limitParam)).toNat).take
    (effectiveLimit p.limitParam + 1).toNat)

/-- Claim-side description of the latencies of the group a vote-statistics
row was computed from: the latencies of the confirmed in-window samples
sharing the row's (sender, receiver, voteType). -/
def rowGroupLats (coll : List VoteLatency) (tfrom tto : Int)
    (row : VoteStatisticsResponse) : List Int :=
  groupLatencies (coll.filter (fun v => confirmedInWindow tfrom tto v))
    (row.sender, row.receiver, row.voteType)

/-- A confirmed sample with latency 10 sent at t = 1. -/
def c4Sample1 : VoteLatency :=
  ⟨1, 0, "prevote", 0, "A", "B", 1, 11, 10, "confirmed"⟩

/-- A confirmed sample with latency 20 sent at t = 2 (the p95 threshold of
the two-sample window). -/
def c4Sample2 : VoteLatency :=
  ⟨1, 0, "prevote", 0, "A", "B", 2, 22, 20, "confirmed"⟩

/-- Helper: the effective event-pagination limit is always positive. -/
theorem effectiveLimit_pos (lp : Option Int) : 0 < effectiveLimit lp := by
  cases lp with
  | none => norm_num [effectiveLimit]
  | some v =>
    simp only [effectiveLimit]
    split
    · rename_i h
      simp only [Bool.and_eq_true, decide_eq_true_eq] at h
      exact h.1
    · norm_num

/-- Claim C9: the effective event-pagination limit always lies in
(0, 50000] and equals 10000 whenever the parameter is absent or outside
that range, and the effective perPage for paged latency tables always lies
in (0, 1000] and equals 100 whenever the parameter is absent or outside
that range. -/
theorem claim_c9_limit_perPage_clamped (lp pp : Option Int) :
    (0 < effectiveLimit lp ∧ effectiveLimit lp ≤ 50000) ∧
    ((∀ v, lp = some v → v ≤ 0 ∨ 50000 < v) → effectiveLimit lp = 10000) ∧
    (0 < effectivePerPage pp ∧ effectivePerPage pp ≤ 1000) ∧
    ((∀ v, pp = some v → v ≤ 0 ∨ 1000 < v) → effectivePerPage pp = 100) := by
  refine ⟨⟨effectiveLimit_pos lp, ?_⟩, ?_, ⟨?_, ?_⟩, ?_⟩
  · cases lp with
    | none => norm_num [effectiveLimit]
    | some v =>
      simp only [effectiveLimit]
      split
      · rename_i h
        simp only [Bool.and_eq_true, decide_eq_true_eq] at h
        exact h.2
      · norm_num
  · intro hout
    cases lp with
    | none => rfl
    | some v =>
      have hv := hout v rfl
      simp only [effectiveLimit]
      split
      · rename_i h
        simp only [Bool.and_eq_true, decide_eq_true_eq] at h
        omega
      · rfl
  · cases pp with
    | none => norm_num [effectivePerPage]
    | some v =>
      simp only [effectivePerPage]
      split
      · rename_i h
        simp only [Bool.and_eq_true, decide_eq_true_eq] at h
        exact h.1
      · norm_num
  · cases pp with
    | none => norm_num [effectivePerPage]
    | some v =>
      simp only [effectivePerPage]
      split
      · rename_i h
        simp only [Bool.and_eq_true, decide_eq_true_eq] at h
        exact h.2
      · norm_num
  · intro hout
    cases pp with
    | none => rfl
    | some v =>
      have hv := hout v rfl
      simp only [effectivePerPage]
      split
      · rename_i h
        simp only [Bool.and_eq_true, decide_eq_true_eq] at h
        omega
      · rfl

/-- Claim C9 witness: an out-of-range limit of 60000 falls back to 10000
and an absent perPage falls back to 100. -/
theorem claim_c9_limit_perPage_clamped_witness :
    effectiveLimit (some 60000) = 10000 ∧ effectivePerPage none = 100 := by
  constructor
  · exact (claim_c9_limit_perPage_clamped (some 60000) none).2.1
      (by intro v hv; cases hv; omega)
  · exact (claim_c9_limit_perPage_clamped (some 60000) none).2.2.2
      (by intro v hv; cases hv)

/-- Claim C7: when the window contains zero confirmed samples, the
percentile-threshold filter returns the empty result with total 0 (the
embedded function is total, so no error is possible on this path). -/
theorem claim_c7_empty_window (coll : List VoteLatency)
    (tfrom tto page perPage : Int) (pk : String)
    (h : coll.filter (fun v => confirmedInWindow tfrom tto v) = []) :
    GetVoteLatencies coll tfrom tto page perPage pk = ⟨[], 0⟩ := by
  unfold GetVoteLatencies
  rw [h]
  rfl

/-- Claim C7 witness: a window whose only sample is unconfirmed yields the
empty result. -/
theorem claim_c7_empty_window_witness :
    GetVoteLatencies [⟨1, 0, "prevote", 0, "A", "B", 1, 11, 10, "unconfirmed"⟩]
      0 10 1 100 "p95" = ⟨[], 0⟩ :=
  claim_c7_empty_window _ 0 10 1 100 "p95" (by decide)

/-- Helper: the block end-to-end pipeline always returns the empty list -
its first `$match` keeps only `sendVote` events and its second `$match`
then demands `enteringNewRound`, so no document survives both. -/
theorem computeBlockEndToEnd_eq_nil (events : List Event) (tfrom tto : Int) :
    ComputeBlockEndToEndLatencyByHeight events tfrom tto = [] := by
  have h : (events.filter (matchTimeSendVote tfrom tto)).filter
      (fun e => e.type = "enteringNewRound") = [] := by
    rw [List.filter_eq_nil_iff]
    intro e he
    have h1 := (List.mem_filter.mp he).2
    simp only [matchTimeSendVote, Bool.and_eq_true, decide_eq_true_eq] at h1
    simp [h1.2]
  simp [ComputeBlockEndToEndLatencyByHeight, h, List.insertionSort]

/-- Claim C2: on a window holding one `enteringNewRound` event at height 3
and one `receivedCompleteProposalBlock` event at the same height, the code
returns no latency row at all (the claim expects one row for height 3
with latency 4): the shared `matchTime` stage restricts the pipeline to
`sendVote` documents before the `enteringNewRound` match. -/
theorem claim_c2_block_end_to_end_eval :
    ComputeBlockEndToEndLatencyByHeight [c2NewRound, c2CompleteBlock] 0 10
      = [] ∧
    (([c2NewRound, c2CompleteBlock].filter (fun e =>
        (0 : Int) ≤ e.timestamp && e.timestamp ≤ 10 &&
          e.type = "enteringNewRound")).length = 1) ∧
    (([c2NewRound, c2CompleteBlock].filter (fun e =>
        e.type = "receivedCompleteProposalBlock" && e.height = 3)).length
      = 1) :=
  ⟨computeBlockEndToEnd_eq_nil _ 0 10, by decide, by decide⟩

/-- Helper: every document reaching the success-rate `$project` stage has
receive indicator 0, because the shared `matchTime` stage already
restricted the stream to `sendVote` documents. -/
theorem msgProjected_recv_zero (events : List Event) (tfrom tto : Int)
    (d : ProjectedVoteMsg) (hd : d ∈ msgProjected events tfrom tto) :
    d.recv = 0 := by
  obtain ⟨e, he, hde⟩ := List.mem_map.mp hd
  have h2 := (List.mem_filter.mp (List.mem_filter.mp he).1).2
  simp only [matchTimeSendVote, Bool.and_eq_true, decide_eq_true_eq] at h2
  subst hde
  simp [msgProject, h2.2]

/-- Helper: every row produced by the success-rate aggregation has
`recvCnt = 0` and `successRate = 0`. -/
theorem computeMessageSuccessRate_recv_zero (events : List Event)
    (tfrom tto : Int) (r : MessageSuccessRate)
    (hr : r ∈ ComputeMessageSuccessRate events tfrom tto) :
    r.recvCnt = 0 ∧ r.successRate = 0 := by
  simp only [ComputeMessageSuccessRate, List.mem_insertionSort] at hr
  obtain ⟨k, hk, hkr⟩ := List.mem_map.mp hr
  subst hkr
  have hz : ∀ x ∈ (((msgProjected events tfrom tto).filter
      (fun d => (d.height, d.pair.1, d.pair.2) = k)).map
        (fun d => d.recv)), x = 0 := by
    intro x hx
    obtain ⟨d, hd, hdx⟩ := List.mem_map.mp hx
    have h0 := msgProjected_recv_zero events tfrom tto d
      (List.mem_filter.mp hd).1
    rw [← hdx]
    exact h0
  constructor
  · simp only [msgGroupRow]
    exact List.sum_eq_zero hz
  · simp only [msgGroupRow]
    split
    · rfl
    · rw [List.sum_eq_zero hz]
      norm_num

/-- Claim C1: on a window holding one `sendVote` from A to B at height 5
and the matching `receiveVote` at B, the code reports the (5, A, B) group
with `recvCnt = 0` and `successRate = 0`, although one `receiveVote` event
of that group lies in the window (the claim expects `recvCnt = 1` and
`successRate = 1`): the shared `matchTime` stage drops every `receiveVote`
document before the grouping. -/
theorem claim_c1_message_success_rate_eval :
    ComputeMessageSuccessRate [c1SendEvent, c1RecvEvent] 0 10 =
      [{ height := 5, sender := "A", receiver := "B", sentCnt := 1,
         recvCnt := 0, successRate := 0 }] ∧
    (([c1SendEvent, c1RecvEvent].filter (fun e =>
        (0 : Int) ≤ e.timestamp && e.timestamp ≤ 10 &&
          e.type = "receiveVote")).length = 1) := by
  constructor
  · simp [ComputeMessageSuccessRate, msgProjected, msgProject, msgGroupRow,
      matchTimeSendVote, c1SendEvent, c1RecvEvent, List.insertionSort,
      List.orderedInsert]
  · decide

/-- Claim C3: on exactly the two node-pair summaries of the spec scenario,
the code reports the overall weighted average 400/3 ≈ 133.3 as the claim
expects, but node B's contribution is 1000/7 ≈ 142.9 rather than the
claimed ≈133.3, because each endpoint is credited `count / 2` with Go
integer division (10/2 + 5/2 = 5 + 2 = 7 instead of 7.5). -/
theorem claim_c3_network_overview_eval :
    (GetNetworkLatencyOverview [c3DocAB, c3DocBC]).overallWeightedAvgP95LatencyMs
      = 400 / 3 ∧
    (GetNetworkLatencyOverview [c3DocAB, c3DocBC]).nodeLatencyContribution.lookup "B"
      = some (1000 / 7) ∧
    ((1000 : Rat) / 7) ≠ 400 / 3 := by
  refine ⟨?_, ?_, by norm_num⟩ <;>
  · simp [GetNetworkLatencyOverview, processDoc, processMessageType, updStats,
      avgLatencyMap, c3DocAB, c3DocBC, List.lookup, Int.tdiv]
    norm_num

/-- Helper: every event of the returned page comes from the stored
collection (the page is obtained by filter, sort, drop and take). -/
theorem handlerData_subset (events : List Event) (p : EventsParams) :
    ∀ e ∈ (GetConsensusEventsHandler events p).data, e ∈ events := by
  intro e he
  have hf : e ∈ fetchedPage events p := by
    simp only [GetConsensusEventsHandler] at he
    split at he
    · exact List.take_subset _ _ he
    · exact he
  have hm : e ∈ matchedSorted events p := by
    simp only [fetchedPage] at hf
    have h1 := List.take_subset _ _ hf
    split at h1
    · exact List.drop_subset _ _ h1
    · exact h1
  simp only [matchedSorted, List.mem_insertionSort] at hm
  exact (List.mem_filter.mp hm).1

/-- Helper: the cursor emission pattern of the handler (guarded by a flag
and by the zero-timestamp check) collapses to `Option.map` over records
with nonzero timestamps. -/
theorem cursorOption (b : Bool) (o : Option Event)
    (hz : ∀ e, o = some e → e.timestamp ≠ 0) :
    (if b then
        match o with
        | some e => if e.timestamp ≠ 0 then some e.timestamp else none
        | none => none
      else none) =
    (if b then o.map (fun e => e.timestamp) else none) := by
  cases b
  · rfl
  · cases o with
    | none => rfl
    | some e => simp [hz e rfl]

/-- Claim C6 counterexample: a request with no cursor over one stored event
returns a non-empty result set with both `nextCursor` and `previousCursor`
absent, so the cursors are not "absent only when the result set is
empty". -/
theorem claim_c6_counterexample :
    (GetConsensusEventsHandler [c6Event] c6Params).data ≠ [] ∧
    (GetConsensusEventsHandler [c6Event] c6Params).nextCursor = none ∧
    (GetConsensusEventsHandler [c6Event] c6Params).previousCursor = none := by
  decide

/-- Claim C6 (amended): for events with nonzero (decodable) timestamps,
`nextCursor` is present iff `hasNext` holds and the result set is
non-empty, in which case it is the timestamp of the last returned record;
`previousCursor` is present iff a cursor was supplied and the result set is
non-empty, in which case it is the timestamp of the first returned record;
in particular both are absent when the result set is empty. -/
theorem claim_c6_amended (events : List Event) (p : EventsParams)
    (hz : ∀ e ∈ events, e.timestamp ≠ 0) :
    ((GetConsensusEventsHandler events p).nextCursor =
      if (GetConsensusEventsHandler events p).hasNext then
        ((GetConsensusEventsHandler events p).data.getLast?).map
          (fun e => e.timestamp)
      else none) ∧
    ((GetConsensusEventsHandler events p).previousCursor =
      if (GetConsensusEventsHandler events p).hasPrevious then
        ((GetConsensusEventsHandler events p).data.head?).map
          (fun e => e.timestamp)
      else none) := by
  have hsub := handlerData_subset events p
  constructor
  · have hzl : ∀ e, (GetConsensusEventsHandler events p).data.getLast? = some e →
        e.timestamp ≠ 0 := fun e hL =>
      hz e (hsub e (List.mem_of_getLast?_eq_some hL))
    exact cursorOption _ _ hzl
  · have hzh : ∀ e, (GetConsensusEventsHandler events p).data.head? = some e →
        e.timestamp ≠ 0 := fun e hL =>
      hz e (hsub e (List.mem_of_mem_head? (Option.mem_def.mpr hL)))
    exact cursorOption _ _ hzh

/-- Claim C6 (amended) witness: with a single stored event and no cursor,
`hasNext` and `hasPrevious` are false and both cursors are absent despite
the non-empty page. -/
theorem claim_c6_amended_witness :
    ((GetConsensusEventsHandler [c6Event] c6Params).nextCursor =
      if (GetConsensusEventsHandler [c6Event] c6Params).hasNext then
        ((GetConsensusEventsHandler [c6Event] c6Params).data.getLast?).map
          (fun e => e.timestamp)
      else none) ∧
    ((GetConsensusEventsHandler [c6Event] c6Params).previousCursor =
      if (GetConsensusEventsHandler [c6Event] c6Params).hasPrevious then
        ((GetConsensusEventsHandler [c6Event] c6Params).data.head?).map
          (fun e => e.timestamp)
      else none) :=
  claim_c6_amended [c6Event] c6Params (by decide)

/-- Helper: the segment skip offset is never negative when the limit is
non-negative. -/
theorem segmentSkip_nonneg (s : Option Int) (limit : Int) (hl : 0 ≤ limit) :
    0 ≤ segmentSkip s limit := by
  cases s with
  | none => simp [segmentSkip]
  | some v =>
    simp only [segmentSkip]
    split
    · rename_i h
      exact mul_nonneg (by omega) hl
    · exact le_refl 0

/-- Helper: the conditional `$skip` stage of the handler (added only for a
positive offset) fetches the same records as unconditionally dropping the
segment offset. -/
theorem fetchedPage_eq_spec (events : List Event) (p : EventsParams) :
    fetchedPage events p = specFetchedRecords events p := by
  simp only [fetchedPage, specFetchedRecords, matchedSorted]
  split
  · rfl
  · rename_i h
    have hn := segmentSkip_nonneg p.segment (effectiveLimit p.limitParam)
      (le_of_lt (effectiveLimit_pos p.limitParam))
    have h0 : segmentSkip p.segment (effectiveLimit p.limitParam) = 0 := by
      omega
    rw [h0]
    rfl

/-- Claim C5: the page is computed from `limit + 1` records fetched sorted
ascending by timestamp after all filters (excluded types, time window,
exclusive cursor/before bounds) and the segment skip; `hasNext` holds iff
all `limit + 1` records came back, in which case the extra record is
discarded from the response; and `hasPrevious` holds iff a cursor
parameter was supplied. -/
theorem claim_c5_pagination (events : List Event) (p : EventsParams) :
    ((GetConsensusEventsHandler events p).hasNext = true ↔
      (specFetchedRecords events p).length =
        (effectiveLimit p.limitParam + 1).toNat) ∧
    (GetConsensusEventsHandler events p).data =
      (if (specFetchedRecords events p).length =
          (effectiveLimit p.limitParam + 1).toNat then
        (specFetchedRecords events p).take (effectiveLimit p.limitParam).toNat
      else specFetchedRecords events p) ∧
    ((GetConsensusEventsHandler events p).hasPrevious = true ↔
      p.cursor ≠ none) := by
  have hfp := fetchedPage_eq_spec events p
  have hpos := effectiveLimit_pos p.limitParam
  have hlen : (specFetchedRecords events p).length ≤
      (effectiveLimit p.limitParam + 1).toNat := by
    simp only [specFetchedRecords]
    rw [List.length_take]
    exact Nat.min_le_left _ _
  have h1 : (effectiveLimit p.limitParam + 1).toNat =
      (effectiveLimit p.limitParam).toNat + 1 := by
    omega
  have hiff : ((effectiveLimit p.limitParam).toNat <
      (specFetchedRecords events p).length) ↔
      ((specFetchedRecords events p).length =
        (effectiveLimit p.limitParam + 1).toNat) := by
    omega
  refine ⟨?_, ?_, ?_⟩
  · simp only [GetConsensusEventsHandler, hfp, decide_eq_true_eq]
    exact hiff
  · simp only [GetConsensusEventsHandler, hfp, decide_eq_true_eq]
    exact if_congr hiff rfl rfl
  · simp only [GetConsensusEventsHandler]
    exact Option.isSome_iff_ne_none

/-- Claim C5 witness: the pagination contract instantiated at a one-event
store with default parameters. -/
theorem claim_c5_pagination_witness :
    ((GetConsensusEventsHandler [c6Event] c6Params).hasNext = true ↔
      (specFetchedRecords [c6Event] c6Params).length =
        (effectiveLimit c6Params.limitParam + 1).toNat) ∧
    (GetConsensusEventsHandler [c6Event] c6Params).data =
      (if (specFetchedRecords [c6Event] c6Params).length =
          (effectiveLimit c6Params.limitParam + 1).toNat then
        (specFetchedRecords [c6Event] c6Params).take
          (effectiveLimit c6Params.limitParam).toNat
      else specFetchedRecords [c6Event] c6Params) ∧
    ((GetConsensusEventsHandler [c6Event] c6Params).hasPrevious = true ↔
      c6Params.cursor ≠ none) :=
  claim_c5_pagination [c6Event] c6Params

/-- Claim C10: no returned event has one of the seven excluded p2p types,
and the optional total count also counts only events outside the excluded
set (combined with the timestamp conditions), for every choice of
parameters. -/
theorem claim_c10_excluded_types (events : List Event) (p : EventsParams) :
    (∀ e ∈ (GetConsensusEventsHandler events p).data,
      e.type ∉ excludedTypes) ∧
    (∀ n, (GetConsensusEventsHandler events p).totalCount = some n →
      n = (events.filter (fun e =>
        !(excludedTypes.contains e.type) && timestampOk p e)).length) := by
  constructor
  · intro e he
    have hf : e ∈ fetchedPage events p := by
      simp only [GetConsensusEventsHandler] at he
      split at he
      · exact List.take_subset _ _ he
      · exact he
    have hm : e ∈ matchedSorted events p := by
      simp only [fetchedPage] at hf
      have h1 := List.take_subset _ _ hf
      split at h1
      · exact List.drop_subset _ _ h1
      · exact h1
    simp only [matchedSorted, List.mem_insertionSort] at hm
    have h2 := (List.mem_filter.mp hm).2
    simp only [matchesEventQuery, Bool.and_eq_true, Bool.not_eq_true'] at h2
    intro hcontra
    have hel := List.elem_eq_true_of_mem hcontra
    simp only [List.contains] at h2
    rw [h2.1] at hel
    exact Bool.false_ne_true hel
  · intro n hn
    simp only [GetConsensusEventsHandler] at hn
    split at hn
    · exact (Option.some_inj.mp hn).symm
    · exact absurd hn (by simp)

/-- Claim C10 witness: with one excluded-type event and one ordinary event
stored, the returned total count is 1 - only the ordinary event is
counted. -/
theorem claim_c10_excluded_types_witness :
    (1 : Nat) = (([⟨"p2pHasVote", 1, "n1", "", "", 0, 0, 0, 0⟩,
      ⟨"enteringNewRound", 2, "n1", "", "", 3, 0, 0, 0⟩] : List Event).filter
        (fun e => !(excludedTypes.contains e.type) &&
          timestampOk ⟨none, none, none, none, none, true⟩ e)).length :=
  (claim_c10_excluded_types
    [⟨"p2pHasVote", 1, "n1", "", "", 0, 0, 0, 0⟩,
      ⟨"enteringNewRound", 2, "n1", "", "", 3, 0, 0, 0⟩]
    ⟨none, none, none, none, none, true⟩).2 1 (by decide)

/-- Claim C4: for a window with a percentile threshold T (the requested
percentile over all confirmed in-window samples), the returned data is
exactly the confirmed in-window samples with latency ≥ T, sorted by
sentTime ascending, offset-paginated with skip (page−1)·perPage and at
most perPage rows, and the total is the full count of those samples. -/
theorem claim_c4_percentile_filter (coll : List VoteLatency) (tfrom tto : Int)
    (page perPage : Int) (pk : String) (T : Int)
    (_hpk : pk = "p50" ∨ pk = "p95" ∨ pk = "p99")
    (_hpage : 1 ≤ page)
    (hT : mongoPercentile (percentileValueOf pk).1 (percentileValueOf pk).2
      ((coll.filter (fun v => confirmedInWindow tfrom tto v)).map
        (fun v => v.latency)) = some T) :
    (GetVoteLatencies coll tfrom tto page perPage pk).data =
      (((coll.filter (fun v => confirmedInWindow tfrom tto v &&
          T ≤ v.latency)).insertionSort
        (fun a b => a.sentTime ≤ b.sentTime)).drop
        ((page - 1) * perPage).toNat).take perPage.toNat ∧
    (GetVoteLatencies coll tfrom tto page perPage pk).data.length ≤
      perPage.toNat ∧
    (GetVoteLatencies coll tfrom tto page perPage pk).total =
      (coll.filter (fun v => confirmedInWindow tfrom tto v &&
        T ≤ v.latency)).length := by
  simp only [GetVoteLatencies]
  rw [hT]
  refine ⟨rfl, ?_, rfl⟩
  rw [List.length_take]
  exact Nat.min_le_left _ _

/-- Claim C4 witness: two confirmed samples with latencies 10 and 20; the
p95 threshold is 20, so the page holds exactly the latency-20 sample. -/
theorem claim_c4_percentile_filter_witness :
    (GetVoteLatencies [c4Sample1, c4Sample2] 0 10 1 10 "p95").data =
      ((([c4Sample1, c4Sample2].filter (fun v => confirmedInWindow 0 10 v &&
          (20 : Int) ≤ v.latency)).insertionSort
        (fun a b => a.sentTime ≤ b.sentTime)).drop
        (((1 : Int) - 1) * 10).toNat).take (10 : Int).toNat ∧
    (GetVoteLatencies [c4Sample1, c4Sample2] 0 10 1 10 "p95").data.length ≤
      (10 : Int).toNat ∧
    (GetVoteLatencies [c4Sample1, c4Sample2] 0 10 1 10 "p95").total =
      ([c4Sample1, c4Sample2].filter (fun v => confirmedInWindow 0 10 v &&
        (20 : Int) ≤ v.latency)).length :=
  claim_c4_percentile_filter [c4Sample1, c4Sample2] 0 10 1 10 "p95" 20
    (Or.inr (Or.inl rfl)) (by norm_num) (by decide)

/-- Claim C8: every vote-statistics row has count ≥ 1 equal to its group
size, spikePerc = 100 × (number of group latencies ≥ 2 × the group's own
p95) / count, spikePerc always lies in [0, 100], and spikePerc = 0
whenever every latency of the group is strictly below 2 × that group's
p95. -/
theorem claim_c8_spikePerc (coll : List VoteLatency) (tfrom tto : Int)
    (row : VoteStatisticsResponse)
    (hrow : row ∈ ComputeVoteStatistics coll tfrom tto) :
    1 ≤ row.count ∧
    row.count = (rowGroupLats coll tfrom tto row).length ∧
    row.spikePerc =
      100 * ((spikeCount (rowGroupLats coll tfrom tto row) : Rat) /
        (row.count : Rat)) ∧
    0 ≤ row.spikePerc ∧ row.spikePerc ≤ 100 ∧
    ((∀ l ∈ rowGroupLats coll tfrom tto row,
        l < 2 * groupP95 (rowGroupLats coll tfrom tto row)) →
      row.spikePerc = 0) := by
  simp only [ComputeVoteStatistics, List.mem_insertionSort] at hrow
  obtain ⟨k, hk, hkr⟩ := List.mem_map.mp hrow
  obtain ⟨k1, k2, k3⟩ := k
  subst hkr
  rw [List.mem_dedup] at hk
  obtain ⟨v, hv, hvk⟩ := List.mem_map.mp hk
  simp only [rowGroupLats, voteStatisticsRow, spikeCount, groupP95]
  have hmem : v.latency ∈ groupLatencies
      (coll.filter (fun v => confirmedInWindow tfrom tto v)) (k1, k2, k3) := by
    refine List.mem_map.mpr ⟨v, ?_, rfl⟩
    rw [List.mem_filter]
    exact ⟨hv, by simp [hvk]⟩
  have hlen : 1 ≤ (groupLatencies
      (coll.filter (fun v => confirmedInWindow tfrom tto v))
      (k1, k2, k3)).length :=
    List.length_pos.mpr (List.ne_nil_of_mem hmem)
  have hsle : ((groupLatencies
      (coll.filter (fun v => confirmedInWindow tfrom tto v))
      (k1, k2, k3)).filter (fun l =>
        2 * ((mongoPercentile 95 100 (groupLatencies
          (coll.filter (fun v => confirmedInWindow tfrom tto v))
          (k1, k2, k3))).getD 0) ≤ l)).length ≤
      (groupLatencies
        (coll.filter (fun v => confirmedInWindow tfrom tto v))
        (k1, k2, k3)).length :=
    List.length_filter_le _ _
  have hcpos : (0 : Rat) < ((groupLatencies
      (coll.filter (fun v => confirmedInWindow tfrom tto v))
      (k1, k2, k3)).length : Rat) := by
    exact_mod_cast hlen
  refine ⟨hlen, trivial, mul_comm _ _, ?_, ?_, ?_⟩
  · positivity
  · calc ((((groupLatencies
          (coll.filter (fun v => confirmedInWindow tfrom tto v))
          (k1, k2, k3)).filter (fun l =>
            2 * ((mongoPercentile 95 100 (groupLatencies
              (coll.filter (fun v => confirmedInWindow tfrom tto v))
              (k1, k2, k3))).getD 0) ≤ l)).length : Rat) /
          (((groupLatencies
            (coll.filter (fun v => confirmedInWindow tfrom tto v))
            (k1, k2, k3)).length : Rat))) * 100
        ≤ 1 * 100 := by
          refine mul_le_mul_of_nonneg_right ?_ (by norm_num)
          rw [div_le_one hcpos]
          exact_mod_cast hsle
      _ = 100 := one_mul 100
  · intro hall
    have hnil : (groupLatencies
        (coll.filter (fun v => confirmedInWindow tfrom tto v))
        (k1, k2, k3)).filter (fun l =>
          2 * ((mongoPercentile 95 100 (groupLatencies
            (coll.filter (fun v => confirmedInWindow tfrom tto v))
            (k1, k2, k3))).getD 0) ≤ l) = [] := by
      rw [List.filter_eq_nil_iff]
      intro l hl
      have := hall l hl
      simp only [decide_eq_true_eq]
      omega
    rw [hnil]
    norm_num

/-- Claim C8 witness: one group of two confirmed samples with latencies 10
and 20; p95 is 20, no latency reaches 40, so spikePerc is 0 and within
bounds. -/
theorem claim_c8_spikePerc_witness :
    1 ≤ (voteStatisticsRow ([c4Sample1, c4Sample2].filter
      (fun v => confirmedInWindow 0 10 v)) ("A", "B", "prevote")).count ∧
    (voteStatisticsRow ([c4Sample1, c4Sample2].filter
      (fun v => confirmedInWindow 0 10 v)) ("A", "B", "prevote")).count =
      (rowGroupLats [c4Sample1, c4Sample2] 0 10
        (voteStatisticsRow ([c4Sample1, c4Sample2].filter
          (fun v => confirmedInWindow 0 10 v)) ("A", "B", "prevote"))).length ∧
    (voteStatisticsRow ([c4Sample1, c4Sample2].filter
      (fun v => confirmedInWindow 0 10 v)) ("A", "B", "prevote")).spikePerc =
      100 * ((spikeCount (rowGroupLats [c4Sample1, c4Sample2] 0 10
        (voteStatisticsRow ([c4Sample1, c4Sample2].filter
          (fun v => confirmedInWindow 0 10 v)) ("A", "B", "prevote"))) : Rat) /
        ((voteStatisticsRow ([c4Sample1, c4Sample2].filter
          (fun v => confirmedInWindow 0 10 v)) ("A", "B", "prevote")).count :
            Rat)) ∧
    0 ≤ (voteStatisticsRow ([c4Sample1, c4Sample2].filter
      (fun v => confirmedInWindow 0 10 v)) ("A", "B", "prevote")).spikePerc ∧
    (voteStatisticsRow ([c4Sample1, c4Sample2].filter
      (fun v => confirmedInWindow 0 10 v)) ("A", "B", "prevote")).spikePerc
      ≤ 100 ∧
    ((∀ l ∈ rowGroupLats [c4Sample1, c4Sample2] 0 10
        (voteStatisticsRow ([c4Sample1, c4Sample2].filter
          (fun v => confirmedInWindow 0 10 v)) ("A", "B", "prevote")),
        l < 2 * groupP95 (rowGroupLats [c4Sample1, c4Sample2] 0 10
          (voteStatisticsRow ([c4Sample1, c4Sample2].filter
            (fun v => confirmedInWindow 0 10 v)) ("A", "B", "prevote")))) →
      (voteStatisticsRow ([c4Sample1, c4Sample2].filter
        (fun v => confirmedInWindow 0 10 v)) ("A", "B", "prevote")).spikePerc
        = 0) :=
  claim_c8_spikePerc [c4Sample1, c4Sample2] 0 10
    (voteStatisticsRow ([c4Sample1, c4Sample2].filter
      (fun v => confirmedInWindow 0 10 v)) ("A", "B", "prevote"))
    (by
      simp only [ComputeVoteStatistics, List.mem_insertionSort]
      exact List.mem_map.mpr ⟨("A", "B", "prevote"), by decide, rfl⟩)

end CometbftAnalyzer
